import Mathlib

/-!
Shallow embedding of the four scripts of the repository
(`fuel_calc.py`, `elevator_ground_cost.py`, `water_schedule_cost.py`,
`plot_water_cost.py`) and proofs of the spec claims about them.

Numbers: the Python scripts compute with IEEE floats; the embedding uses `ℝ`
for the arithmetic of the formulas and `ℚ` for the values produced by CSV
parsing, so every stated identity is exact real/rational arithmetic.
Fallible code (CSV field lookup and numeric parsing, where Python raises
`KeyError` / `ValueError` / `IndexError` / `StopIteration`) is embedded with
`Option`: `none` means the Python code raises an unhandled exception there.
-/

namespace Py

/-- Numeric value of a list of decimal digit characters, most significant
first (the usual left fold `a * 10 + digit`). -/
def digitsVal (cs : List Char) : ℕ :=
  cs.foldl (fun a c => a * 10 + (c.toNat - 48)) 0

/-- Parse an unsigned decimal literal: digits, optionally with one decimal
point; at least one digit overall (so `"7"`, `"7."`, `".5"`, `"3.25"` parse
and `""`, `"."`, `"abc"`, `"1.2.3"` do not). -/
def parseUnsigned (cs : List Char) : Option ℚ :=
  let intPart := cs.takeWhile (fun c => c ≠ '.')
  match cs.dropWhile (fun c => c ≠ '.') with
  | [] =>
    if !intPart.isEmpty && intPart.all Char.isDigit then
      some (digitsVal intPart : ℚ)
    else
      none
  | _ :: frac =>
    if intPart.isEmpty && frac.isEmpty then
      none
    else if intPart.all Char.isDigit && frac.all Char.isDigit then
      some ((digitsVal intPart : ℚ) + (digitsVal frac : ℚ) / (10 : ℚ) ^ frac.length)
    else
      none

/-- Whitespace stripping on a character list (both ends), the semantics of
Python's `str.strip()`. -/
def stripChars (cs : List Char) : List Char :=
  ((cs.dropWhile Char.isWhitespace).reverse.dropWhile Char.isWhitespace).reverse

/-- Model of Python's `str.strip()`. -/
def strip (s : String) : String :=
  String.mk (stripChars s.toList)

/-- Model of Python's `str.lower()` (per-character ASCII lowering, which
agrees with Python on the ASCII names used below). -/
def lower (s : String) : String :=
  String.mk (s.toList.map Char.toLower)

/-- Model of Python's `str.startswith(pat)`. -/
def startswith (s pat : String) : Bool :=
  decide (s.toList.take pat.toList.length = pat.toList)

/-- Model of Python's `str.endswith(pat)`. -/
def endswith (s pat : String) : Bool :=
  decide (s.toList.drop (s.toList.length - pat.toList.length) = pat.toList)

/-- Model of Python's builtin `float(s)` on plain decimal literals: optional
surrounding whitespace, optional single leading sign, digits with an optional
decimal point.  `none` models `float` raising `ValueError`.  (Exponent forms,
`inf`/`nan` and underscore separators are outside the modelled string
universe; every string appearing in the theorems below is plain decimal or
plainly malformed, where this model and Python agree.) -/
def pyFloat (s : String) : Option ℚ :=
  match stripChars s.toList with
  | '+' :: rest => parseUnsigned rest
  | '-' :: rest => (parseUnsigned rest).map Neg.neg
  | cs => parseUnsigned cs

/-- Model of Python's `int(q)` on a finite rational: truncation toward zero. -/
def pyInt (q : ℚ) : Int :=
  q.num.tdiv (q.den : Int)

end Py

namespace ElevatorGroundCost

/-- `C = 0.00713` from `elevator_ground_cost.py`. -/
noncomputable def C : ℝ := 0.00713

/-- `M = 125.0` from `elevator_ground_cost.py`. -/
noncomputable def M : ℝ := 125.0

/-- `PAYLOAD_TONS = 125.0` from `elevator_ground_cost.py`. -/
noncomputable def PAYLOAD_TONS : ℝ := 125.0

/-- `load_rows`: each CSV row yields `(row["发射场"].strip(), float(row["总f"]))`;
a missing column (`KeyError`) or malformed number (`ValueError`) is an
unhandled exception, i.e. `none`. -/
def load_rows : List (List (String × String)) → Option (List (String × ℚ))
  | [] => some []
  | row :: rest => do
    let name ← row.lookup "发射场"
    let fs ← row.lookup "总f"
    let q ← Py.pyFloat fs
    let tail ← load_rows rest
    pure ((Py.strip name, q) :: tail)

/-- `is_elevator`: `name.lower().startswith("space elevator")`. -/
def is_elevator (name : String) : Bool :=
  Py.startswith (Py.lower name) "space elevator"

/-- Per-row computation of `main`: `cost_launch = C * M * f`;
`cost_per_ton = cost_launch / PAYLOAD_TONS`. -/
noncomputable def cost_per_ton (f_total : ℝ) : ℝ :=
  C * M * f_total / PAYLOAD_TONS

/-- The elevator-class cost list built by `main`'s loop: rows whose name
passes `is_elevator`, in order, each mapped to its `cost_per_ton`. -/
noncomputable def elevator_costs (rows : List (String × ℝ)) : List ℝ :=
  (rows.filter (fun r => is_elevator r.1)).map (fun r => cost_per_ton r.2)

/-- The ground-class cost list built by `main`'s loop: rows whose name fails
`is_elevator`, in order, each mapped to its `cost_per_ton`. -/
noncomputable def ground_costs (rows : List (String × ℝ)) : List ℝ :=
  (rows.filter (fun r => !is_elevator r.1)).map (fun r => cost_per_ton r.2)

/-- `sum(costs) / len(costs) if costs else 0.0`. -/
noncomputable def classAvg (costs : List ℝ) : ℝ :=
  if costs.isEmpty then 0.0 else costs.sum / (costs.length : ℝ)

/-- `elevator_avg` as computed by `main`. -/
noncomputable def elevator_avg (rows : List (String × ℝ)) : ℝ :=
  classAvg (elevator_costs rows)

/-- `ground_avg` as computed by `main`. -/
noncomputable def ground_avg (rows : List (String × ℝ)) : ℝ :=
  classAvg (ground_costs rows)

end ElevatorGroundCost

namespace WaterScheduleCost

/-- `ANNUAL_USE_TONS = 1_387_000.0`. -/
noncomputable def ANNUAL_USE_TONS : ℝ := 1387000.0

/-- `RECOVERY_RATE = 0.90`. -/
noncomputable def RECOVERY_RATE : ℝ := 0.90

/-- `DEFICIT_RATE = 1.0 - RECOVERY_RATE`. -/
noncomputable def DEFICIT_RATE : ℝ := 1.0 - RECOVERY_RATE

/-- `RESERVE_FRACTION = 0.50`. -/
noncomputable def RESERVE_FRACTION : ℝ := 0.50

/-- `DAYS_FULL = 102`. -/
def DAYS_FULL : ℕ := 102

/-- `DAYS_DEFICIT = 263`. -/
def DAYS_DEFICIT : ℕ := 263

/-- `DAYS_PER_YEAR = 365`. -/
def DAYS_PER_YEAR : ℕ := 365

/-- `load_cost_and_capacity`: reads `cost_per_ton_亿美元/吨` and
`capacity_per_year_吨/年` from the first data row; `none` models the
unhandled `KeyError`/`ValueError`. -/
def load_cost_and_capacity (row : List (String × String)) : Option (ℚ × ℚ) := do
  let cs ← row.lookup "cost_per_ton_亿美元/吨"
  let cost_per_ton ← Py.pyFloat cs
  let caps ← row.lookup "capacity_per_year_吨/年"
  let capacity_per_year ← Py.pyFloat caps
  pure (cost_per_ton, capacity_per_year)

/-- `capacity_per_day = capacity_per_year / DAYS_PER_YEAR`. -/
noncomputable def capacity_per_day (capacity_per_year : ℝ) : ℝ :=
  capacity_per_year / (DAYS_PER_YEAR : ℝ)

/-- `deficit_per_year = ANNUAL_USE_TONS * DEFICIT_RATE`. -/
noncomputable def deficit_per_year : ℝ := ANNUAL_USE_TONS * DEFICIT_RATE

/-- `deficit_per_day = deficit_per_year / DAYS_PER_YEAR`. -/
noncomputable def deficit_per_day : ℝ := deficit_per_year / (DAYS_PER_YEAR : ℝ)

/-- `delivered_full = capacity_per_day * DAYS_FULL`. -/
noncomputable def delivered_full (capacity_per_year : ℝ) : ℝ :=
  capacity_per_day capacity_per_year * (DAYS_FULL : ℝ)

/-- `deficit_full = deficit_per_day * DAYS_FULL`. -/
noncomputable def deficit_full : ℝ := deficit_per_day * (DAYS_FULL : ℝ)

/-- `reserve_target = ANNUAL_USE_TONS * RESERVE_FRACTION`. -/
noncomputable def reserve_target : ℝ := ANNUAL_USE_TONS * RESERVE_FRACTION

/-- `reserve_filled = max(delivered_full - deficit_full, 0.0)`. -/
noncomputable def reserve_filled (capacity_per_year : ℝ) : ℝ :=
  max (delivered_full capacity_per_year - deficit_full) 0.0

/-- `remaining_reserve = max(reserve_target - reserve_filled, 0.0)`. -/
noncomputable def remaining_reserve (capacity_per_year : ℝ) : ℝ :=
  max (reserve_target - reserve_filled capacity_per_year) 0.0

/-- `delivered_deficit = deficit_per_day * DAYS_DEFICIT`. -/
noncomputable def delivered_deficit : ℝ := deficit_per_day * (DAYS_DEFICIT : ℝ)

/-- `total_delivered = delivered_full + delivered_deficit`. -/
noncomputable def total_delivered (capacity_per_year : ℝ) : ℝ :=
  delivered_full capacity_per_year + delivered_deficit

/-- `total_cost = total_delivered * cost_per_ton`. -/
noncomputable def total_cost (cost_per_ton capacity_per_year : ℝ) : ℝ :=
  total_delivered capacity_per_year * cost_per_ton

end WaterScheduleCost

namespace FuelCalc

/-- `G0 = 9.80665`. -/
noncomputable def G0 : ℝ := 9.80665

/-- `PAYLOAD_TONS = 125.0`. -/
noncomputable def PAYLOAD_TONS : ℝ := 125.0

/-- `MASS_RATIO_CAP = None`: the optional cap on the mass ratio, disabled. -/
def MASS_RATIO_CAP : Option ℝ := none

/-- `LAUNCHES_PER_WORKSTATION_PER_YEAR = 134`. -/
def LAUNCHES_PER_WORKSTATION_PER_YEAR : ℕ := 134

/-- `YEARS = 65`. -/
def YEARS : ℕ := 65

/-- `ENGINE_TYPES`: the 3 fixed fuels with `(isp_sea, isp_vac)`, in the
source's insertion order. -/
noncomputable def ENGINE_TYPES : List (String × ℝ × ℝ) :=
  [("液氧煤油", 310.0, 368.0), ("液氧液氢", 386.0, 472.0), ("液氧甲烷", 370.0, 400.0)]

/-- `CO2_FACTORS` as a function of the fuel name (combustion + extraction).
The Python dict raises `KeyError` on any other key; `main` only ever looks up
the three `ENGINE_TYPES` keys, so the catch-all `0` branch is unreachable in
the embedded computation. -/
noncomputable def CO2_FACTORS (fuel : String) : ℝ :=
  if fuel = "液氧煤油" then 0.96 + 0.51
  else if fuel = "液氧甲烷" then 0.60 + 0.48
  else if fuel = "液氧液氢" then 0.00 + 1.66
  else 0

/-- `slugify`'s underscore collapsing: `while "__" in slug: slug =
slug.replace("__", "_")` reaches the fixpoint in which every run of
underscores is a single underscore. -/
def collapseUnderscores : List Char → List Char
  | [] => []
  | '_' :: '_' :: rest => collapseUnderscores ('_' :: rest)
  | c :: rest => c :: collapseUnderscores rest
termination_by l => l.length

/-- `slug.strip("_")`: drop underscores from both ends. -/
def stripUnderscores (cs : List Char) : List Char :=
  ((cs.dropWhile (fun c => c = '_')).reverse.dropWhile (fun c => c = '_')).reverse

/-- `slugify`: lowercase, replace non-alphanumeric characters by `_`, strip
and collapse underscores, defaulting to `"site"` when empty.  (`Char.isAlphanum`
models Python's `str.isalnum` on the ASCII site names used below.) -/
def slugify (name : String) : String :=
  let out := (name.toList.map Char.toLower).map (fun ch => if ch.isAlphanum then ch else '_')
  let slug := collapseUnderscores (stripUnderscores out)
  if slug.isEmpty then "site" else String.mk slug

/-- `load_dv`: each row yields
`slug ↦ (float(row["大气dv(km/s)"]) * 1000, float(row["真空dv(km/s)"]) * 1000)`;
`none` models the unhandled `KeyError`/`ValueError`.  The Python dict is kept
as the association list of rows in order (later duplicates shadowing earlier
ones is irrelevant to the claims below). -/
def load_dv : List (List (String × String)) → Option (List (String × ℚ × ℚ))
  | [] => some []
  | row :: rest => do
    let name ← row.lookup "发射场"
    let atm ← row.lookup "大气dv(km/s)"
    let qa ← Py.pyFloat atm
    let vac ← row.lookup "真空dv(km/s)"
    let qv ← Py.pyFloat vac
    let tail ← load_dv rest
    pure ((slugify (Py.strip name), qa * 1000, qv * 1000) :: tail)

/-- The column loop of `load_workstations` over the enumerated header: a
column not ending in `"_workstations_in_use"` is skipped; otherwise the
matching cell of the first data row is read (`row[idx]` out of range is an
uncaught `IndexError`, i.e. `none`), and `int(float(cell))` is wrapped in
`try/except ValueError`, so a malformed cell becomes `0` instead of an
error. -/
def wsLoop (row : List String) : List (ℕ × String) → Option (List (String × Int))
  | [] => some []
  | p :: rest =>
    if Py.endswith p.2 "_workstations_in_use" then do
      let cell ← row[p.1]?
      let tail ← wsLoop row rest
      pure ((p.2.dropRight "_workstations_in_use".length,
        match Py.pyFloat cell with
        | some q => Py.pyInt q
        | none => 0) :: tail)
    else wsLoop row rest

/-- `load_workstations`: run `wsLoop` over the indexed header columns. -/
def load_workstations (header row : List String) :
    Option (List (String × Int)) :=
  wsLoop row header.enum

/-- `propellant_per_launch(dv, isp)`: `ratio = exp(dv / (isp * G0))`, capped
only when `MASS_RATIO_CAP is not None`, then `PAYLOAD_TONS * (ratio - 1.0)`. -/
noncomputable def propellant_per_launch (dv isp : ℝ) : ℝ :=
  let r := Real.exp (dv / (isp * G0))
  let r2 := match MASS_RATIO_CAP with
    | some cap => if cap < r then cap else r
    | none => r
  PAYLOAD_TONS * (r2 - 1.0)

/-- One iteration of the site loop of `main`: skip a site with `ws <= 0`
(`continue`), skip a site absent from `dv_map` (`continue`), otherwise
accumulate `propellant_per_launch * launches` into the atmospheric and
vacuum totals, with `launches = ws * LAUNCHES_PER_WORKSTATION_PER_YEAR *
YEARS`. -/
noncomputable def siteStep (dv_map : List (String × ℝ × ℝ))
    (isp_sea isp_vac : ℝ) (acc : ℝ × ℝ) (p : String × Int) : ℝ × ℝ :=
  if p.2 ≤ 0 then acc
  else
    match dv_map.lookup p.1 with
    | none => acc
    | some dv =>
      let launches : ℝ :=
        (p.2 : ℝ) * (LAUNCHES_PER_WORKSTATION_PER_YEAR : ℝ) * (YEARS : ℝ)
      (acc.1 + propellant_per_launch dv.1 isp_sea * launches,
        acc.2 + propellant_per_launch dv.2 isp_vac * launches)

/-- The inner site loop of `main` for one fuel: fold `siteStep` over the
workstation map starting from `(0.0, 0.0)`. -/
noncomputable def totalsForFuel (dv_map : List (String × ℝ × ℝ))
    (ws_map : List (String × Int)) (isp_sea isp_vac : ℝ) : ℝ × ℝ :=
  ws_map.foldl (siteStep dv_map isp_sea isp_vac) (0.0, 0.0)

/-- The fuel loop of `main`: one output row per fuel of `ENGINE_TYPES`, with
atmospheric total, vacuum total, and CO2 = (atm + vac) * factor. -/
noncomputable def fuelTotals (dv_map : List (String × ℝ × ℝ))
    (ws_map : List (String × Int)) : List (String × ℝ × ℝ × ℝ) :=
  ENGINE_TYPES.map fun e =>
    let t := totalsForFuel dv_map ws_map e.2.1 e.2.2
    (e.1, t.1, t.2, (t.1 + t.2) * CO2_FACTORS e.1)

/-- Spec-side qualification of a workstation entry: positive count and a
matching delta-v record ("exactly those sites whose workstation count is
positive and which have a matching delta-v record"). -/
def qualifies (dv_map : List (String × ℝ × ℝ)) (p : String × Int) : Bool :=
  decide (0 < p.2) && (dv_map.lookup p.1).isSome

/-- Spec-side atmospheric contribution of a qualifying site:
per-launch propellant × (workstations × 134 × 65). -/
noncomputable def specAtmContribution (dv_map : List (String × ℝ × ℝ))
    (isp_sea : ℝ) (p : String × Int) : ℝ :=
  match dv_map.lookup p.1 with
  | some dv =>
    propellant_per_launch dv.1 isp_sea *
      ((p.2 : ℝ) * (LAUNCHES_PER_WORKSTATION_PER_YEAR : ℝ) * (YEARS : ℝ))
  | none => 0

/-- Spec-side vacuum contribution of a qualifying site. -/
noncomputable def specVacContribution (dv_map : List (String × ℝ × ℝ))
    (isp_vac : ℝ) (p : String × Int) : ℝ :=
  match dv_map.lookup p.1 with
  | some dv =>
    propellant_per_launch dv.2 isp_vac *
      ((p.2 : ℝ) * (LAUNCHES_PER_WORKSTATION_PER_YEAR : ℝ) * (YEARS : ℝ))
  | none => 0

end FuelCalc

namespace PlotWaterCost

/-- `ANNUAL_USE_TONS = 1_387_000.0`. -/
noncomputable def ANNUAL_USE_TONS : ℝ := 1387000.0

/-- `RECOVERY_RATE = 0.90`. -/
noncomputable def RECOVERY_RATE : ℝ := 0.90

/-- `DEFICIT_RATE = 1.0 - RECOVERY_RATE`. -/
noncomputable def DEFICIT_RATE : ℝ := 1.0 - RECOVERY_RATE

/-- `DAYS_FULL = 102`. -/
def DAYS_FULL : ℕ := 102

/-- `DAYS_PER_YEAR = 365`. -/
def DAYS_PER_YEAR : ℕ := 365

/-- `read_capacity`: `float(row["capacity_per_year_吨/年"])` from the first
data row; `none` models the unhandled `KeyError`/`ValueError`. -/
def read_capacity (row : List (String × String)) : Option ℚ := do
  let cs ← row.lookup "capacity_per_year_吨/年"
  Py.pyFloat cs

/-- `read_costs`: finds the `电梯平均` row and the `地面平均` row (first match;
`StopIteration` if absent), then parses `每吨价格(亿美元/吨)` from each;
`none` models any of the unhandled exceptions. -/
def read_costs (rows : List (List (String × String))) : Option (ℚ × ℚ) := do
  let er ← rows.find? (fun r => r.lookup "类型" == some "电梯平均")
  let gr ← rows.find? (fun r => r.lookup "类型" == some "地面平均")
  let es ← er.lookup "每吨价格(亿美元/吨)"
  let e ← Py.pyFloat es
  let gs ← gr.lookup "每吨价格(亿美元/吨)"
  let g ← Py.pyFloat gs
  pure (e, g)

/-- `capacity_per_day = capacity_per_year / DAYS_PER_YEAR`. -/
noncomputable def capacity_per_day (capacity_per_year : ℝ) : ℝ :=
  capacity_per_year / (DAYS_PER_YEAR : ℝ)

/-- `deficit_per_day = (ANNUAL_USE_TONS * DEFICIT_RATE) / DAYS_PER_YEAR`. -/
noncomputable def deficit_per_day : ℝ :=
  ANNUAL_USE_TONS * DEFICIT_RATE / (DAYS_PER_YEAR : ℝ)

/-- Value of a cumulative series after `d` iterations of the day loop of
`cumulative_costs`: starts at `0.0`; day `d+1` adds `capacity_per_day * cost`
while `d+1 <= DAYS_FULL`, else `deficit_per_day * cost` (the running
`series.append(series[-1] + delta)`). -/
noncomputable def cumulVal (capacity_per_year cost : ℝ) : ℕ → ℝ
  | 0 => 0.0
  | d + 1 =>
    cumulVal capacity_per_year cost d +
      (if d + 1 ≤ DAYS_FULL then capacity_per_day capacity_per_year
        else deficit_per_day) * cost

/-- `days = list(range(0, DAYS_PER_YEAR + 1))`. -/
def days : List ℕ := List.range (DAYS_PER_YEAR + 1)

/-- The `elevator_recovery` list built by `cumulative_costs`: entry `d` is
the cumulative cost after `d` days at per-ton cost `cost_elev`. -/
noncomputable def elevator_recovery (capacity_per_year cost_elev : ℝ) : List ℝ :=
  (List.range (DAYS_PER_YEAR + 1)).map (cumulVal capacity_per_year cost_elev)

/-- The `ground_recovery` list built by `cumulative_costs`: entry `d` is the
cumulative cost after `d` days at per-ton cost `cost_ground`. -/
noncomputable def ground_recovery (capacity_per_year cost_ground : ℝ) : List ℝ :=
  (List.range (DAYS_PER_YEAR + 1)).map (cumulVal capacity_per_year cost_ground)

end PlotWaterCost

/-! ## Helper lemmas -/

/-- With `MASS_RATIO_CAP = none` the cap branch vanishes. -/
theorem FuelCalc.propellant_per_launch_eq (dv isp : ℝ) :
    FuelCalc.propellant_per_launch dv isp
      = FuelCalc.PAYLOAD_TONS * (Real.exp (dv / (isp * FuelCalc.G0)) - 1) := by
  norm_num [FuelCalc.propellant_per_launch, FuelCalc.MASS_RATIO_CAP]

/-! ## Claim theorems -/

/-- Claim C1: the mass-ratio cap is disabled — `MASS_RATIO_CAP` is the no-op
sentinel `None`, and for every `dv` and every `isp > 0`,
`propellant_per_launch dv isp = 125.0 * (exp (dv / (isp * 9.80665)) - 1.0)`,
with no cap ever applied. -/
theorem claim1_mass_ratio_cap_disabled (dv isp : ℝ) (_h : 0 < isp) :
    FuelCalc.MASS_RATIO_CAP = none ∧
    FuelCalc.propellant_per_launch dv isp
      = 125.0 * (Real.exp (dv / (isp * 9.80665)) - 1.0) := by
  refine ⟨rfl, ?_⟩
  rw [FuelCalc.propellant_per_launch_eq]
  norm_num [FuelCalc.PAYLOAD_TONS, FuelCalc.G0]

/-- Witness for C1 at `dv = 1000`, `isp = 310`. -/
theorem claim1_mass_ratio_cap_disabled_witness :
    (0 : ℝ) < 310 ∧
    (FuelCalc.MASS_RATIO_CAP = none ∧
      FuelCalc.propellant_per_launch 1000 310
        = 125.0 * (Real.exp (1000 / (310 * 9.80665)) - 1.0)) :=
  ⟨by norm_num, claim1_mass_ratio_cap_disabled 1000 310 (by norm_num)⟩

/-- Claim C2: for every row with cost factor `f ≥ 0`, the computed
`cost_per_ton` equals `0.00713 * f` exactly — the payload cancels. -/
theorem claim2_cost_per_ton_payload_cancels (f : ℝ) (_h : 0 ≤ f) :
    ElevatorGroundCost.cost_per_ton f = 0.00713 * f := by
  unfold ElevatorGroundCost.cost_per_ton ElevatorGroundCost.C
    ElevatorGroundCost.M ElevatorGroundCost.PAYLOAD_TONS
  field_simp
  ring

/-- Witness for C2 at `f = 2`. -/
theorem claim2_cost_per_ton_payload_cancels_witness :
    (0 : ℝ) ≤ 2 ∧ ElevatorGroundCost.cost_per_ton 2 = 0.00713 * 2 :=
  ⟨by norm_num, claim2_cost_per_ton_payload_cancels 2 (by norm_num)⟩

/-- Claim C5: `propellant_per_launch 0 isp = 0` for every `isp > 0`; for
positive `dv` the result is strictly increasing in `dv` (at fixed `isp > 0`)
and strictly decreasing in `isp` (at fixed `dv > 0`). -/
theorem claim5_propellant_monotonicity :
    (∀ isp : ℝ, 0 < isp → FuelCalc.propellant_per_launch 0 isp = 0)
    ∧ (∀ isp dv₁ dv₂ : ℝ, 0 < isp → 0 < dv₁ → dv₁ < dv₂ →
        FuelCalc.propellant_per_launch dv₁ isp
          < FuelCalc.propellant_per_launch dv₂ isp)
    ∧ (∀ dv isp₁ isp₂ : ℝ, 0 < dv → 0 < isp₁ → isp₁ < isp₂ →
        FuelCalc.propellant_per_launch dv isp₂
          < FuelCalc.propellant_per_launch dv isp₁) := by
  have hG0 : (0 : ℝ) < FuelCalc.G0 := by norm_num [FuelCalc.G0]
  have hP : (0 : ℝ) < FuelCalc.PAYLOAD_TONS := by norm_num [FuelCalc.PAYLOAD_TONS]
  refine ⟨?_, ?_, ?_⟩
  · intro isp _
    rw [FuelCalc.propellant_per_launch_eq]
    simp
  · intro isp dv₁ dv₂ hisp _ hlt
    rw [FuelCalc.propellant_per_launch_eq, FuelCalc.propellant_per_launch_eq]
    have hden : (0 : ℝ) < isp * FuelCalc.G0 := mul_pos hisp hG0
    have harg : dv₁ / (isp * FuelCalc.G0) < dv₂ / (isp * FuelCalc.G0) :=
      (div_lt_div_iff_of_pos_right hden).mpr hlt
    exact (mul_lt_mul_left hP).mpr (sub_lt_sub_right (Real.exp_lt_exp.mpr harg) 1)
  · intro dv isp₁ isp₂ hdv h1 hlt
    rw [FuelCalc.propellant_per_launch_eq, FuelCalc.propellant_per_launch_eq]
    have hden : (0 : ℝ) < isp₁ * FuelCalc.G0 := mul_pos h1 hG0
    have hmul : isp₁ * FuelCalc.G0 < isp₂ * FuelCalc.G0 :=
      (mul_lt_mul_right hG0).mpr hlt
    have harg : dv / (isp₂ * FuelCalc.G0) < dv / (isp₁ * FuelCalc.G0) :=
      div_lt_div_of_pos_left hdv hden hmul
    exact (mul_lt_mul_left hP).mpr (sub_lt_sub_right (Real.exp_lt_exp.mpr harg) 1)

/-- Witness for C5 at concrete `dv`/`isp` values. -/
theorem claim5_propellant_monotonicity_witness :
    (0 : ℝ) < 310 ∧ (0 : ℝ) < 1000 ∧ (1000 : ℝ) < 2000 ∧ (310 : ℝ) < 400 ∧
    FuelCalc.propellant_per_launch 0 310 = 0 ∧
    FuelCalc.propellant_per_launch 1000 310
      < FuelCalc.propellant_per_launch 2000 310 ∧
    FuelCalc.propellant_per_launch 1000 400
      < FuelCalc.propellant_per_launch 1000 310 :=
  ⟨by norm_num, by norm_num, by norm_num, by norm_num,
    claim5_propellant_monotonicity.1 310 (by norm_num),
    claim5_propellant_monotonicity.2.1 310 1000 2000
      (by norm_num) (by norm_num) (by norm_num),
    claim5_propellant_monotonicity.2.2 1000 310 400
      (by norm_num) (by norm_num) (by norm_num)⟩

/-- Claim C6: `total_delivered = delivered_full + delivered_deficit`,
`total_cost = total_delivered * cost_per_ton`, and `total_cost` is linear in
`cost_per_ton` at fixed capacity (doubling the cost doubles the total). -/
theorem claim6_water_cost_linear (cost_per_ton capacity_per_year : ℝ) :
    WaterScheduleCost.total_delivered capacity_per_year
      = WaterScheduleCost.delivered_full capacity_per_year
        + WaterScheduleCost.delivered_deficit
    ∧ WaterScheduleCost.total_cost cost_per_ton capacity_per_year
      = WaterScheduleCost.total_delivered capacity_per_year * cost_per_ton
    ∧ WaterScheduleCost.total_cost (2 * cost_per_ton) capacity_per_year
      = 2 * WaterScheduleCost.total_cost cost_per_ton capacity_per_year := by
  refine ⟨rfl, rfl, ?_⟩
  unfold WaterScheduleCost.total_cost
  ring

/-- Claim C7: `reserve_filled` and `remaining_reserve` are the 0-clamped
maxima and hence never negative, with `reserve_target` = 50% of annual use. -/
theorem claim7_reserves_clamped (capacity_per_year : ℝ) :
    WaterScheduleCost.reserve_filled capacity_per_year
      = max (WaterScheduleCost.delivered_full capacity_per_year
          - WaterScheduleCost.deficit_full) 0
    ∧ 0 ≤ WaterScheduleCost.reserve_filled capacity_per_year
    ∧ WaterScheduleCost.remaining_reserve capacity_per_year
      = max (WaterScheduleCost.reserve_target
          - WaterScheduleCost.reserve_filled capacity_per_year) 0
    ∧ 0 ≤ WaterScheduleCost.remaining_reserve capacity_per_year
    ∧ WaterScheduleCost.reserve_target
      = 0.50 * WaterScheduleCost.ANNUAL_USE_TONS := by
  refine ⟨by norm_num [WaterScheduleCost.reserve_filled], ?_,
    by norm_num [WaterScheduleCost.remaining_reserve], ?_, ?_⟩
  · norm_num [WaterScheduleCost.reserve_filled, le_max_iff]
  · norm_num [WaterScheduleCost.remaining_reserve, le_max_iff]
  · unfold WaterScheduleCost.reserve_target WaterScheduleCost.RESERVE_FRACTION
    ring

/-- Claim C9: an empty class (elevator or ground) reports an average of
exactly `0.0`; the empty-class division is never performed. -/
theorem claim9_empty_class_average_zero (rows : List (String × ℝ)) :
    (ElevatorGroundCost.elevator_costs rows = []
      → ElevatorGroundCost.elevator_avg rows = 0)
    ∧ (ElevatorGroundCost.ground_costs rows = []
      → ElevatorGroundCost.ground_avg rows = 0) := by
  constructor
  · intro h
    norm_num [ElevatorGroundCost.elevator_avg, ElevatorGroundCost.classAvg, h]
  · intro h
    norm_num [ElevatorGroundCost.ground_avg, ElevatorGroundCost.classAvg, h]

/-- Witness for C9 on the empty input CSV. -/
theorem claim9_empty_class_average_zero_witness :
    ElevatorGroundCost.elevator_costs [] = []
    ∧ ElevatorGroundCost.ground_costs [] = []
    ∧ ElevatorGroundCost.elevator_avg [] = 0
    ∧ ElevatorGroundCost.ground_avg [] = 0 :=
  ⟨by simp [ElevatorGroundCost.elevator_costs],
    by simp [ElevatorGroundCost.ground_costs],
    (claim9_empty_class_average_zero []).1
      (by simp [ElevatorGroundCost.elevator_costs]),
    (claim9_empty_class_average_zero []).2
      (by simp [ElevatorGroundCost.ground_costs])⟩

/-- Folding the site loop from any accumulator adds exactly the sums of the
qualifying sites' contributions. -/
theorem FuelCalc.siteStep_foldl (dv_map : List (String × ℝ × ℝ))
    (isp_sea isp_vac : ℝ) (ws_map : List (String × Int)) :
    ∀ init : ℝ × ℝ,
      ws_map.foldl (FuelCalc.siteStep dv_map isp_sea isp_vac) init
        = (init.1 + ((ws_map.filter (FuelCalc.qualifies dv_map)).map
              (FuelCalc.specAtmContribution dv_map isp_sea)).sum,
           init.2 + ((ws_map.filter (FuelCalc.qualifies dv_map)).map
              (FuelCalc.specVacContribution dv_map isp_vac)).sum) := by
  induction ws_map with
  | nil => intro init; simp
  | cons p t ih =>
    intro init
    rw [List.foldl_cons, ih]
    by_cases hpos : p.2 ≤ 0
    · have hq : FuelCalc.qualifies dv_map p = false := by
        simp only [FuelCalc.qualifies, Bool.and_eq_false_iff, decide_eq_false_iff_not]
        left
        omega
      simp [FuelCalc.siteStep, hpos, List.filter_cons, hq]
    · cases hdv : dv_map.lookup p.1 with
      | none =>
        have hq : FuelCalc.qualifies dv_map p = false := by
          simp [FuelCalc.qualifies, hdv]
        simp [FuelCalc.siteStep, hpos, hdv, List.filter_cons, hq]
      | some dv =>
        have hq : FuelCalc.qualifies dv_map p = true := by
          simp only [FuelCalc.qualifies, hdv, Option.isSome_some, Bool.and_true,
            decide_eq_true_eq]
          omega
        simp only [FuelCalc.siteStep, hpos, if_false, hdv, List.filter_cons, hq,
          if_true, List.map_cons, List.sum_cons, FuelCalc.specAtmContribution,
          FuelCalc.specVacContribution, Prod.mk.injEq]
        constructor <;> ring

/-- Claim C3: for each of the 3 fixed fuel types, the atmospheric and vacuum
totals equal the sum, over exactly those sites whose workstation count is
positive and which have a matching delta-v record, of per-launch propellant ×
(workstations × 134 × 65); a site with `ws ≤ 0` or without a delta-v record
contributes nothing, and the loop raises no error. -/
theorem claim3_totals_are_filtered_sums (dv_map : List (String × ℝ × ℝ))
    (ws_map : List (String × Int)) :
    FuelCalc.fuelTotals dv_map ws_map
      = FuelCalc.ENGINE_TYPES.map (fun e =>
          (e.1,
           ((ws_map.filter (FuelCalc.qualifies dv_map)).map
              (FuelCalc.specAtmContribution dv_map e.2.1)).sum,
           ((ws_map.filter (FuelCalc.qualifies dv_map)).map
              (FuelCalc.specVacContribution dv_map e.2.2)).sum,
           (((ws_map.filter (FuelCalc.qualifies dv_map)).map
              (FuelCalc.specAtmContribution dv_map e.2.1)).sum
             + ((ws_map.filter (FuelCalc.qualifies dv_map)).map
              (FuelCalc.specVacContribution dv_map e.2.2)).sum)
             * FuelCalc.CO2_FACTORS e.1)) := by
  unfold FuelCalc.fuelTotals FuelCalc.totalsForFuel
  have h00 : (0.0 : ℝ) = 0 := by norm_num
  simp only [FuelCalc.siteStep_foldl, h00, zero_add]

/-- `deficit_per_day` of the plot script is nonnegative. -/
theorem PlotWaterCost.deficit_per_day_nonneg : 0 ≤ PlotWaterCost.deficit_per_day := by
  norm_num [PlotWaterCost.deficit_per_day, PlotWaterCost.ANNUAL_USE_TONS,
    PlotWaterCost.DEFICIT_RATE, PlotWaterCost.RECOVERY_RATE, PlotWaterCost.DAYS_PER_YEAR]

/-- Entry `d` of `elevator_recovery` is the cumulative value after `d` days. -/
theorem PlotWaterCost.elevator_recovery_getElem (capacity_per_year cost_elev : ℝ)
    (d : ℕ) (h : d < 366) :
    (PlotWaterCost.elevator_recovery capacity_per_year cost_elev)[d]!
      = PlotWaterCost.cumulVal capacity_per_year cost_elev d := by
  have hlen : d < (PlotWaterCost.elevator_recovery capacity_per_year cost_elev).length := by
    simpa [PlotWaterCost.elevator_recovery, PlotWaterCost.DAYS_PER_YEAR] using h
  rw [getElem!_pos (PlotWaterCost.elevator_recovery capacity_per_year cost_elev) d hlen]
  simp [PlotWaterCost.elevator_recovery]

/-- Entry `d` of `ground_recovery` is the cumulative value after `d` days. -/
theorem PlotWaterCost.ground_recovery_getElem (capacity_per_year cost_ground : ℝ)
    (d : ℕ) (h : d < 366) :
    (PlotWaterCost.ground_recovery capacity_per_year cost_ground)[d]!
      = PlotWaterCost.cumulVal capacity_per_year cost_ground d := by
  have hlen : d < (PlotWaterCost.ground_recovery capacity_per_year cost_ground).length := by
    simpa [PlotWaterCost.ground_recovery, PlotWaterCost.DAYS_PER_YEAR] using h
  rw [getElem!_pos (PlotWaterCost.ground_recovery capacity_per_year cost_ground) d hlen]
  simp [PlotWaterCost.ground_recovery]

/-- One day of accumulation never decreases the series when the capacity and
the per-ton cost are nonnegative. -/
theorem PlotWaterCost.cumulVal_le_succ (capacity_per_year cost : ℝ)
    (hcap : 0 ≤ capacity_per_year) (hcost : 0 ≤ cost) (d : ℕ) :
    PlotWaterCost.cumulVal capacity_per_year cost d
      ≤ PlotWaterCost.cumulVal capacity_per_year cost (d + 1) := by
  rw [PlotWaterCost.cumulVal]
  have hstep : 0 ≤ (if d + 1 ≤ PlotWaterCost.DAYS_FULL
      then PlotWaterCost.capacity_per_day capacity_per_year
      else PlotWaterCost.deficit_per_day) * cost := by
    apply mul_nonneg _ hcost
    split_ifs
    · unfold PlotWaterCost.capacity_per_day
      positivity
    · exact PlotWaterCost.deficit_per_day_nonneg
  linarith

/-- Both cumulative series accumulate the same tonnage schedule scaled by
their respective constant per-ton cost. -/
theorem PlotWaterCost.cumulVal_mul_comm (capacity_per_year ce cg : ℝ) (d : ℕ) :
    PlotWaterCost.cumulVal capacity_per_year ce d * cg
      = PlotWaterCost.cumulVal capacity_per_year cg d * ce := by
  induction d with
  | zero => norm_num [PlotWaterCost.cumulVal]
  | succ n ih =>
    simp only [PlotWaterCost.cumulVal, add_mul]
    rw [ih]
    ring

/-- Counterexample to claim C8 as stated: the per-ton costs read from the
CSVs are not constrained to be nonnegative, and at `capacity_per_year = 365`,
`cost_elev = -1` the elevator series strictly decreases from day 0 to day 1. -/
theorem claim8_counterexample_negative_cost :
    ¬ ((PlotWaterCost.elevator_recovery 365 (-1))[0]!
        ≤ (PlotWaterCost.elevator_recovery 365 (-1))[1]!) := by
  rw [PlotWaterCost.elevator_recovery_getElem 365 (-1) 0 (by norm_num),
    PlotWaterCost.elevator_recovery_getElem 365 (-1) 1 (by norm_num)]
  norm_num [PlotWaterCost.cumulVal, PlotWaterCost.capacity_per_day,
    PlotWaterCost.DAYS_FULL, PlotWaterCost.DAYS_PER_YEAR]

/-- Claim C8 (amended): for every nonnegative capacity and nonnegative pair
of per-ton costs, the two cumulative series have length 366 (days 0..365),
start at `0.0`, and are monotonically non-decreasing. -/
theorem claim8_series_length_and_monotone
    (capacity_per_year cost_elev cost_ground : ℝ)
    (hcap : 0 ≤ capacity_per_year) (he : 0 ≤ cost_elev) (hg : 0 ≤ cost_ground) :
    (PlotWaterCost.elevator_recovery capacity_per_year cost_elev).length = 366
    ∧ (PlotWaterCost.ground_recovery capacity_per_year cost_ground).length = 366
    ∧ (PlotWaterCost.elevator_recovery capacity_per_year cost_elev)[0]! = 0.0
    ∧ (PlotWaterCost.ground_recovery capacity_per_year cost_ground)[0]! = 0.0
    ∧ (∀ d : ℕ, d < 365 →
        (PlotWaterCost.elevator_recovery capacity_per_year cost_elev)[d]!
          ≤ (PlotWaterCost.elevator_recovery capacity_per_year cost_elev)[d + 1]!)
    ∧ (∀ d : ℕ, d < 365 →
        (PlotWaterCost.ground_recovery capacity_per_year cost_ground)[d]!
          ≤ (PlotWaterCost.ground_recovery capacity_per_year cost_ground)[d + 1]!) := by
  refine ⟨by simp [PlotWaterCost.elevator_recovery, PlotWaterCost.DAYS_PER_YEAR],
    by simp [PlotWaterCost.ground_recovery, PlotWaterCost.DAYS_PER_YEAR], ?_, ?_, ?_, ?_⟩
  · rw [PlotWaterCost.elevator_recovery_getElem _ _ 0 (by norm_num)]
    norm_num [PlotWaterCost.cumulVal]
  · rw [PlotWaterCost.ground_recovery_getElem _ _ 0 (by norm_num)]
    norm_num [PlotWaterCost.cumulVal]
  · intro d hd
    rw [PlotWaterCost.elevator_recovery_getElem _ _ d (by omega),
      PlotWaterCost.elevator_recovery_getElem _ _ (d + 1) (by omega)]
    exact PlotWaterCost.cumulVal_le_succ _ _ hcap he d
  · intro d hd
    rw [PlotWaterCost.ground_recovery_getElem _ _ d (by omega),
      PlotWaterCost.ground_recovery_getElem _ _ (d + 1) (by omega)]
    exact PlotWaterCost.cumulVal_le_succ _ _ hcap hg d

/-- Witness for the amended C8 at `capacity_per_year = 365`, costs `1`, `2`. -/
theorem claim8_series_length_and_monotone_witness :
    (0 : ℝ) ≤ 365 ∧ (0 : ℝ) ≤ 1 ∧ (0 : ℝ) ≤ 2 ∧
    ((PlotWaterCost.elevator_recovery 365 1).length = 366
    ∧ (PlotWaterCost.ground_recovery 365 2).length = 366
    ∧ (PlotWaterCost.elevator_recovery 365 1)[0]! = 0.0
    ∧ (PlotWaterCost.ground_recovery 365 2)[0]! = 0.0
    ∧ (∀ d : ℕ, d < 365 →
        (PlotWaterCost.elevator_recovery 365 1)[d]!
          ≤ (PlotWaterCost.elevator_recovery 365 1)[d + 1]!)
    ∧ (∀ d : ℕ, d < 365 →
        (PlotWaterCost.ground_recovery 365 2)[d]!
          ≤ (PlotWaterCost.ground_recovery 365 2)[d + 1]!)) :=
  ⟨by norm_num, by norm_num, by norm_num,
    claim8_series_length_and_monotone 365 1 2 (by norm_num) (by norm_num) (by norm_num)⟩

/-- Claim C10: for every day `d` in 0..365, the two cumulative series are
pointwise proportional to their per-ton costs:
`elevator_recovery[d] * cost_ground = ground_recovery[d] * cost_elev`. -/
theorem claim10_series_pointwise_proportional
    (capacity_per_year cost_elev cost_ground : ℝ) (d : ℕ) (h : d ≤ 365) :
    (PlotWaterCost.elevator_recovery capacity_per_year cost_elev)[d]! * cost_ground
      = (PlotWaterCost.ground_recovery capacity_per_year cost_ground)[d]! * cost_elev := by
  rw [PlotWaterCost.elevator_recovery_getElem _ _ d (by omega),
    PlotWaterCost.ground_recovery_getElem _ _ d (by omega)]
  exact PlotWaterCost.cumulVal_mul_comm capacity_per_year cost_elev cost_ground d

/-- Witness for C10 at `capacity_per_year = 1000`, costs `3`, `7`, day 5. -/
theorem claim10_series_pointwise_proportional_witness :
    (5 : ℕ) ≤ 365 ∧
    (PlotWaterCost.elevator_recovery 1000 3)[5]! * 7
      = (PlotWaterCost.ground_recovery 1000 7)[5]! * 3 :=
  ⟨by norm_num, claim10_series_pointwise_proportional 1000 3 7 5 (by norm_num)⟩

set_option maxRecDepth 8000 in
/-- Counterexample to claim C4 as stated: `"abc"` is a malformed numeric
field in the required workstation-count column, yet `load_workstations`
returns successfully (no raised error) with the count defaulted to `0`. -/
theorem claim4_counterexample_workstations_default :
    Py.pyFloat "abc" = none
    ∧ FuelCalc.load_workstations ["cape_workstations_in_use"] ["abc"]
        = some [("cape", 0)] := by
  constructor
  · decide
  · decide

/-- Claim C4 (amended): a malformed numeric field in any required numeric
column is an unhandled error in `load_dv` (both dv columns), `load_rows`,
`load_cost_and_capacity` (both columns), `read_capacity` and `read_costs`
(both per-ton price cells); but in `load_workstations` the workstation-count
parse is wrapped in `try/except ValueError` and a malformed cell is converted
to the default `0` instead of failing. -/
theorem claim4_malformed_numeric_fields :
    (∀ (row : List (String × String)) (rest : List (List (String × String)))
        (name atm : String),
        row.lookup "发射场" = some name → row.lookup "大气dv(km/s)" = some atm →
        Py.pyFloat atm = none → FuelCalc.load_dv (row :: rest) = none)
    ∧ (∀ (row : List (String × String)) (rest : List (List (String × String)))
        (name atm vac : String),
        row.lookup "发射场" = some name → row.lookup "大气dv(km/s)" = some atm →
        (Py.pyFloat atm).isSome = true → row.lookup "真空dv(km/s)" = some vac →
        Py.pyFloat vac = none → FuelCalc.load_dv (row :: rest) = none)
    ∧ (∀ (row : List (String × String)) (rest : List (List (String × String)))
        (name fs : String),
        row.lookup "发射场" = some name → row.lookup "总f" = some fs →
        Py.pyFloat fs = none → ElevatorGroundCost.load_rows (row :: rest) = none)
    ∧ (∀ (row : List (String × String)) (cs : String),
        row.lookup "cost_per_ton_亿美元/吨" = some cs → Py.pyFloat cs = none →
        WaterScheduleCost.load_cost_and_capacity row = none)
    ∧ (∀ (row : List (String × String)) (cs caps : String),
        row.lookup "cost_per_ton_亿美元/吨" = some cs →
        (Py.pyFloat cs).isSome = true →
        row.lookup "capacity_per_year_吨/年" = some caps → Py.pyFloat caps = none →
        WaterScheduleCost.load_cost_and_capacity row = none)
    ∧ (∀ (row : List (String × String)) (cs : String),
        row.lookup "capacity_per_year_吨/年" = some cs → Py.pyFloat cs = none →
        PlotWaterCost.read_capacity row = none)
    ∧ (∀ (rows : List (List (String × String))) (er gr : List (String × String))
        (es : String),
        rows.find? (fun r => r.lookup "类型" == some "电梯平均") = some er →
        rows.find? (fun r => r.lookup "类型" == some "地面平均") = some gr →
        er.lookup "每吨价格(亿美元/吨)" = some es → Py.pyFloat es = none →
        PlotWaterCost.read_costs rows = none)
    ∧ (∀ (rows : List (List (String × String))) (er gr : List (String × String))
        (es gs : String),
        rows.find? (fun r => r.lookup "类型" == some "电梯平均") = some er →
        rows.find? (fun r => r.lookup "类型" == some "地面平均") = some gr →
        er.lookup "每吨价格(亿美元/吨)" = some es →
        (Py.pyFloat es).isSome = true →
        gr.lookup "每吨价格(亿美元/吨)" = some gs → Py.pyFloat gs = none →
        PlotWaterCost.read_costs rows = none)
    ∧ (∀ (col cell : String),
        Py.endswith col "_workstations_in_use" = true → Py.pyFloat cell = none →
        FuelCalc.load_workstations [col] [cell]
          = some [(col.dropRight "_workstations_in_use".length, 0)]) := by
  refine ⟨?_, ?_, ?_, ?_, ?_, ?_, ?_, ?_, ?_⟩
  · intro row rest name atm h1 h2 h3
    simp [FuelCalc.load_dv, h1, h2, h3]
  · intro row rest name atm vac h1 h2 h3 h4 h5
    obtain ⟨qa, hqa⟩ := Option.isSome_iff_exists.mp h3
    simp [FuelCalc.load_dv, h1, h2, hqa, h4, h5]
  · intro row rest name fs h1 h2 h3
    simp [ElevatorGroundCost.load_rows, h1, h2, h3]
  · intro row cs h1 h2
    simp [WaterScheduleCost.load_cost_and_capacity, h1, h2]
  · intro row cs caps h1 h2 h3 h4
    obtain ⟨qc, hqc⟩ := Option.isSome_iff_exists.mp h2
    simp [WaterScheduleCost.load_cost_and_capacity, h1, hqc, h3, h4]
  · intro row cs h1 h2
    simp [PlotWaterCost.read_capacity, h1, h2]
  · intro rows er gr es h1 h2 h3 h4
    simp [PlotWaterCost.read_costs, h1, h2, h3, h4]
  · intro rows er gr es gs h1 h2 h3 h4 h5 h6
    obtain ⟨e, he⟩ := Option.isSome_iff_exists.mp h4
    simp [PlotWaterCost.read_costs, h1, h2, h3, he, h5, h6]
  · intro col cell h1 h2
    simp [FuelCalc.load_workstations, FuelCalc.wsLoop, List.enum, h1, h2]

set_option maxRecDepth 8000 in
/-- Witness for the amended C4 at concrete rows with the malformed cell
`"zz"` in each required numeric column in turn (and the well-formed cell
`"3"` where an earlier column must parse first). -/
theorem claim4_malformed_numeric_fields_witness :
    ([("发射场", "x"), ("大气dv(km/s)", "zz")].lookup "发射场" = some "x"
      ∧ [("发射场", "x"), ("大气dv(km/s)", "zz")].lookup "大气dv(km/s)" = some "zz"
      ∧ Py.pyFloat "zz" = none
      ∧ FuelCalc.load_dv [[("发射场", "x"), ("大气dv(km/s)", "zz")]] = none)
    ∧ ((Py.pyFloat "3").isSome = true
      ∧ FuelCalc.load_dv
          [[("发射场", "x"), ("大气dv(km/s)", "3"), ("真空dv(km/s)", "zz")]] = none)
    ∧ ([("发射场", "x"), ("总f", "zz")].lookup "总f" = some "zz"
      ∧ ElevatorGroundCost.load_rows [[("发射场", "x"), ("总f", "zz")]] = none)
    ∧ ([("cost_per_ton_亿美元/吨", "zz")].lookup "cost_per_ton_亿美元/吨" = some "zz"
      ∧ WaterScheduleCost.load_cost_and_capacity [("cost_per_ton_亿美元/吨", "zz")] = none)
    ∧ (WaterScheduleCost.load_cost_and_capacity
          [("cost_per_ton_亿美元/吨", "3"), ("capacity_per_year_吨/年", "zz")] = none)
    ∧ ([("capacity_per_year_吨/年", "zz")].lookup "capacity_per_year_吨/年" = some "zz"
      ∧ PlotWaterCost.read_capacity [("capacity_per_year_吨/年", "zz")] = none)
    ∧ (PlotWaterCost.read_costs
          [[("类型", "电梯平均"), ("每吨价格(亿美元/吨)", "zz")],
            [("类型", "地面平均"), ("每吨价格(亿美元/吨)", "3")]] = none)
    ∧ (PlotWaterCost.read_costs
          [[("类型", "电梯平均"), ("每吨价格(亿美元/吨)", "3")],
            [("类型", "地面平均"), ("每吨价格(亿美元/吨)", "zz")]] = none)
    ∧ (Py.endswith "pad_workstations_in_use" "_workstations_in_use" = true
      ∧ FuelCalc.load_workstations ["pad_workstations_in_use"] ["zz"]
          = some [("pad_workstations_in_use".dropRight
              "_workstations_in_use".length, 0)]) :=
  ⟨⟨by decide, by decide, by decide,
      claim4_malformed_numeric_fields.1 _ [] "x" "zz" (by decide) (by decide) (by decide)⟩,
    ⟨by decide,
      claim4_malformed_numeric_fields.2.1 _ [] "x" "3" "zz"
        (by decide) (by decide) (by decide) (by decide) (by decide)⟩,
    ⟨by decide,
      claim4_malformed_numeric_fields.2.2.1 _ [] "x" "zz"
        (by decide) (by decide) (by decide)⟩,
    ⟨by decide,
      claim4_malformed_numeric_fields.2.2.2.1 _ "zz" (by decide) (by decide)⟩,
    claim4_malformed_numeric_fields.2.2.2.2.1 _ "3" "zz"
      (by decide) (by decide) (by decide) (by decide),
    ⟨by decide,
      claim4_malformed_numeric_fields.2.2.2.2.2.1 _ "zz" (by decide) (by decide)⟩,
    claim4_malformed_numeric_fields.2.2.2.2.2.2.1 _
      [("类型", "电梯平均"), ("每吨价格(亿美元/吨)", "zz")]
      [("类型", "地面平均"), ("每吨价格(亿美元/吨)", "3")] "zz"
      (by decide) (by decide) (by decide) (by decide),
    claim4_malformed_numeric_fields.2.2.2.2.2.2.2.1 _
      [("类型", "电梯平均"), ("每吨价格(亿美元/吨)", "3")]
      [("类型", "地面平均"), ("每吨价格(亿美元/吨)", "zz")] "3" "zz"
      (by decide) (by decide) (by decide) (by decide) (by decide) (by decide),
    ⟨by decide,
      claim4_malformed_numeric_fields.2.2.2.2.2.2.2.2 "pad_workstations_in_use" "zz"
        (by decide) (by decide)⟩⟩
